import Mathlib

/-!
Verification of the API_Integration repository's core logic: the retrying
API client (`src/api_client.py`, `APIClient._request`), the two-tier TTL
cache (`src/cache_manager.py`, `CacheManager`), and the cache-aside
orchestration in the CLI layer (`src/cli.py`).

The embedding is shallow: each Python function is translated into an
executable Lean function over explicit state.  Network and filesystem
effects are modelled as inputs (the outcome of each HTTP attempt, the
state of each cache file, whether a write or removal succeeds), and the
observable effects (attempt counts, sleep durations, raised exceptions,
resulting cache state) are returned explicitly.
-/

namespace ApiIntegration

/-! ## APIClient (`src/api_client.py`)

`APIClient._request(path)` loops `attempt` over `1 .. max_retries`.
Each iteration issues one GET; the outcome of that GET is modelled by
`AttemptOutcome`.  Inside the `try` block the code raises
`APIClientError` for status >= 500 ("Server error"), status >= 400
("Client error"), a JSON parse failure ("Invalid JSON response"), or a
non-list body ("Unexpected JSON shape").  The `except` clauses then
decide the control flow: `requests.Timeout`/`requests.ConnectionError`
record `last_exc`, sleep `backoff_factor * 2 ** (attempt - 1)` and
continue; `APIClientError` is re-raised immediately (so every
`APIClientError`, including the one raised for a 5xx status, is fatal);
any other exception records `last_exc`, sleeps and continues.  When the
loop finishes, `APIClientError(f"Failed to fetch ...") from last_exc`
is raised. -/

/-- The exceptions that take a retry branch in `_request`:
`requests.Timeout` / `requests.ConnectionError` (first retry branch) or
any uncategorized exception (the broad `except Exception` branch). -/
inductive ExcKind where
  | transport
  | unexpected
  deriving DecidableEq, Repr

/-- What `resp.json()` yields: a parse failure (`ValueError`), a parsed
body that is not a list, or a list of records. -/
inductive BodyParse (α : Type) where
  | invalid
  | notList
  | list (records : List α)
  deriving DecidableEq, Repr

/-- The outcome of one `self.session.get(url, timeout=...)` call. -/
inductive AttemptOutcome (α : Type) where
  | transportError
  | unexpectedError
  | response (status : Nat) (body : BodyParse α)
  deriving DecidableEq, Repr

/-- The `APIClientError` values `_request` can raise to its caller. -/
inductive ReqError where
  | serverError (status : Nat)
  | clientError (status : Nat)
  | invalidJson
  | unexpectedShape
  | exhausted (lastExc : Option ExcKind)
  deriving DecidableEq, Repr

/-- How one loop iteration of `_request` reacts to its attempt's
outcome: return the data, re-raise an `APIClientError` (fatal), or
record `last_exc` and sleep (retry). -/
inductive StepResult (α : Type) where
  | success (records : List α)
  | fatal (e : ReqError)
  | retry (exc : ExcKind)
  deriving DecidableEq, Repr

/-- The body of one iteration of the `for attempt in range(1, ...)`
loop: status checks in source order (`>= 500` before `>= 400`), then
JSON parsing, then the list-shape check. -/
def classify {α : Type} : AttemptOutcome α → StepResult α
  | .transportError => .retry .transport
  | .unexpectedError => .retry .unexpected
  | .response s body =>
    if 500 ≤ s then .fatal (.serverError s)
    else if 400 ≤ s then .fatal (.clientError s)
    else match body with
      | .invalid => .fatal .invalidJson
      | .notList => .fatal .unexpectedShape
      | .list rs => .success rs

/-- Observable behaviour of one `_request` call: how many attempts ran,
the durations passed to `time.sleep` in order, and the returned data or
raised error. -/
structure RequestResult (α : Type) where
  attemptsMade : Nat
  sleeps : List ℚ
  result : Except ReqError (List α)
  deriving Repr

/-- The retry loop of `_request`.  `attempt` is the 1-based loop index,
the second argument is the number of iterations left, and the third is
the current `last_exc`.  A retryable failure sleeps
`b * 2 ^ (attempt - 1)` even when it is the final iteration; when the
iterations are exhausted the aggregated error carries `last_exc`. -/
def requestAux {α : Type} (b : ℚ) (outcomes : Nat → AttemptOutcome α) :
    Nat → Nat → Option ExcKind → RequestResult α
  | _, 0, lastExc => ⟨0, [], .error (.exhausted lastExc)⟩
  | attempt, n + 1, _lastExc =>
    match classify (outcomes attempt) with
    | .success rs => ⟨1, [], .ok rs⟩
    | .fatal e => ⟨1, [], .error e⟩
    | .retry exc =>
      let wait := b * 2 ^ (attempt - 1)
      let r := requestAux b outcomes (attempt + 1) n (some exc)
      ⟨r.attemptsMade + 1, wait :: r.sleeps, r.result⟩

/-- `APIClient._request` with backoff factor `b` and `max_retries`
attempts, where `outcomes i` is what attempt `i` (1-based) observes. -/
def request {α : Type} (b : ℚ) (maxRetries : Nat)
    (outcomes : Nat → AttemptOutcome α) : RequestResult α :=
  requestAux b outcomes 1 maxRetries none

/-! ## CacheManager (`src/cache_manager.py`)

The cache has an in-memory dict tier and a file tier.  The filesystem
is modelled as a map from path to `FileState`, and whether a given
write or removal succeeds is an explicit input. -/

/-- One in-memory cache entry: the dict Python stores as
`"ts" ↦ ts, "data" ↦ data`. -/
structure MemEntry (α : Type) where
  ts : Int
  data : α
  deriving DecidableEq, Repr

/-- The parsed JSON document of a cache file, as read through
`safe_get(obj, "ts", 0)` and `safe_get(obj, "data", None)`: each field
is `none` when absent (or when the document is not a dict, in which
case `safe_get` swallows the `AttributeError` and yields its default). -/
structure ParsedFile (α : Type) where
  ts : Option Int
  data : Option α
  deriving DecidableEq, Repr

/-- State of one persisted cache file as the code observes it: absent
(`os.path.exists` false), unreadable (`open`/read raises `OSError`),
corrupt (`json.load` raises `ValueError`), or parsed. -/
inductive FileState (α : Type) where
  | absent
  | unreadable
  | corrupt
  | parsed (obj : ParsedFile α)
  deriving DecidableEq, Repr

/-- The exceptions `CacheManager` raises to its callers: only the
`CacheIOError` class. -/
inductive CacheErr where
  | cacheIOError
  deriving DecidableEq, Repr

/-- `CacheManager` state: `cache_dir`, `ttl`, the in-memory dict
`_mem_cache`, and the filesystem contents. -/
structure CacheState (α : Type) where
  cacheDir : String
  ttl : Int
  memCache : String → Option (MemEntry α)
  files : String → FileState α

/-- One character of `key.replace("/", "_")`. -/
def replaceSlashChar (c : Char) : Char := if c = '/' then '_' else c

/-- `key.replace("/", "_")` on the character list. -/
def replaceSlash (l : List Char) : List Char := l.map replaceSlashChar

/-- Remove the leading run of underscores (one side of `.strip("_")`). -/
def dropUnderscores : List Char → List Char
  | [] => []
  | c :: cs => if c = '_' then dropUnderscores cs else c :: cs

/-- `.strip("_")`: remove both the leading and the trailing run of
underscores. -/
def stripUnderscores (l : List Char) : List Char :=
  (dropUnderscores (dropUnderscores l).reverse).reverse

/-- `safe_name = key.replace("/", "_").strip("_")`. -/
def safeName (key : String) : String :=
  String.mk (stripUnderscores (replaceSlash key.data))

/-- `CacheManager._file_path`: `os.path.join` of the cache directory
with the safe name suffixed by `.json`. -/
def filePath (cacheDir : String) (key : String) : String :=
  cacheDir ++ "/" ++ safeName key ++ ".json"

/-- `CacheManager.save`: store in the memory dict first, then attempt
the file write (`now` is `int(time.time())`, `fileWriteOk` says whether
`open`/`json.dump` succeeds).  A failed file write raises `CacheIOError`
and the memory write is not rolled back. -/
def save {α : Type} (now : Int) (fileWriteOk : Bool) (st : CacheState α)
    (key : String) (data : α) : CacheState α × Except CacheErr Unit :=
  let st1 : CacheState α :=
    { st with memCache := fun k => if k = key then some ⟨now, data⟩ else st.memCache k }
  if fileWriteOk then
    ({ st1 with
        files := fun p =>
          if p = filePath st.cacheDir key then .parsed ⟨some now, some data⟩
          else st1.files p },
      .ok ())
  else (st1, .error .cacheIOError)

/-- The file-tier half of `CacheManager.load` (everything after the
in-memory check falls through). -/
def loadFile {α : Type} (now : Int) (st : CacheState α) (key : String)
    (allowStale : Bool) : CacheState α × Except CacheErr (Option α) :=
  match st.files (filePath st.cacheDir key) with
  | .absent => (st, .ok none)
  | .unreadable => (st, .error .cacheIOError)
  | .corrupt => (st, .error .cacheIOError)
  | .parsed obj =>
    let ts := obj.ts.getD 0
    match obj.data with
    | none => (st, .ok none)
    | some d =>
      let age := now - ts
      if allowStale || age ≤ st.ttl then
        ({ st with memCache := fun k => if k = key then some ⟨ts, d⟩ else st.memCache k },
          .ok (some d))
      else (st, .ok none)

/-- `CacheManager.load`: return the in-memory entry when it exists and
is fresh (or stale reads are allowed); otherwise fall through to the
file tier. -/
def load {α : Type} (now : Int) (st : CacheState α) (key : String)
    (allowStale : Bool) : CacheState α × Except CacheErr (Option α) :=
  match st.memCache key with
  | some mem =>
    let age := now - mem.ts
    if allowStale || age ≤ st.ttl then (st, .ok (some mem.data))
    else loadFile now st key allowStale
  | none => loadFile now st key allowStale

/-- The guarded `os.remove(path)` inside `clear`: an absent file makes
`os.remove` raise (swallowed, nothing changes); a present file is
removed only when the filesystem permits it (`removeOk`), and a denied
removal's exception is swallowed, leaving the file on disk. -/
def removeFile {α : Type} (removeOk : String → Bool)
    (files : String → FileState α) (p : String) : String → FileState α :=
  match files p with
  | .absent => files
  | _ => if removeOk p then (fun q => if q = p then .absent else files q) else files

/-- `CacheManager.clear`: with a key that passes the `if key:`
truthiness test (a non-empty string), pop it from the memory dict and
try to remove its file, swallowing any exception; otherwise — also when
the key is the empty string — empty the memory dict and try to remove
every file in the cache directory, swallowing exceptions per file. -/
def clear {α : Type} (removeOk : String → Bool) (st : CacheState α)
    (key : String) : CacheState α × Except CacheErr Unit :=
  if key ≠ "" then
    ({ st with
        memCache := fun k => if k = key then none else st.memCache k,
        files := removeFile removeOk st.files (filePath st.cacheDir key) },
      .ok ())
  else
    ({ st with
        memCache := fun _ => none,
        files := fun p =>
          match st.files p with
          | .absent => .absent
          | f => if removeOk p then .absent else f },
      .ok ())

/-! ## Cache-aside orchestration (`src/cli.py`) -/

/-- The observable result of one cache-aside call: the records handed
to the caller, the provenance flag, whether the API fetch function was
invoked, and the resulting cache state.  (The elapsed-time value is
observability only and is not modelled.) -/
structure OrchResult (α : Type) where
  posts : List α
  fromCache : Bool
  fetchInvoked : Bool
  state : CacheState (List α)

/-- `CLI._fetch_with_cache(key, fetcher)`: load from the cache; a
non-None result returns with `from_cache = True`; on a miss the fetch
function runs (`fetched` is its successful result), the result is
saved, and `from_cache = False`.  A `CacheIOError` from `load` or
`save` propagates. -/
def fetchWithCache {α : Type} (now : Int) (fileWriteOk : Bool)
    (st : CacheState (List α)) (key : String) (fetched : List α) :
    Except CacheErr (OrchResult α) :=
  match load now st key false with
  | (_, .error e) => .error e
  | (st1, .ok (some d)) => .ok ⟨d, true, false, st1⟩
  | (st1, .ok none) =>
    match save now fileWriteOk st1 key fetched with
    | (st2, .ok _) => .ok ⟨fetched, false, true, st2⟩
    | (_, .error e) => .error e

/-- The cache interaction of `CLI._handle_list_posts`: with
`force = True` it first runs `self.cache.clear("posts")`, then calls
`self.api.fetch_posts()` unconditionally (`fetched` is its successful
result), saves the result under `"posts"` and reports
`from_cache = False`; without `force` it goes through
`_fetch_with_cache`. -/
def handleListPosts {α : Type} (now : Int) (fileWriteOk : Bool)
    (removeOk : String → Bool) (st : CacheState (List α)) (fetched : List α)
    (force : Bool) : Except CacheErr (OrchResult α) :=
  if force then
    let st1 := (clear removeOk st "posts").fst
    match save now fileWriteOk st1 "posts" fetched with
    | (st2, .ok _) => .ok ⟨fetched, false, true, st2⟩
    | (_, .error e) => .error e
  else
    fetchWithCache now fileWriteOk st "posts" fetched

/-! ## Concrete states and relations used in the statements -/

/-- A small concrete cache state used by witnesses: directory `cache`,
TTL 300, empty memory tier, no files. -/
def emptyState (α : Type) : CacheState α :=
  ⟨"cache", 300, fun _ => none, fun _ => .absent⟩

/-- A concrete state for C3's witness: nothing in memory, the `posts`
cache file present but unreadable. -/
def unreadableState : CacheState Nat :=
  ⟨"cache", 300, fun _ => none,
    fun p => if p = "cache/posts.json" then .unreadable else .absent⟩

/-- The state relation of claim C4: `key`'s stored entry `(ts, d)` is
resident in the memory tier with the persisted tier either absent or
holding the same entry (the shape `save` produces), or resides only in
the persisted tier. -/
def entryStored {α : Type} (st : CacheState α) (key : String) (ts : Int)
    (d : α) : Prop :=
  (st.memCache key = some ⟨ts, d⟩ ∧
      (st.files (filePath st.cacheDir key) = .absent ∨
        st.files (filePath st.cacheDir key) = .parsed ⟨some ts, some d⟩)) ∨
    (st.memCache key = none ∧
      st.files (filePath st.cacheDir key) = .parsed ⟨some ts, some d⟩)

/-- A concrete state for C4's witness: `"posts"` in memory with
timestamp 10 and payload 7, no files. -/
def freshMemState : CacheState Nat :=
  ⟨"cache", 300, fun k => if k = "posts" then some ⟨10, 7⟩ else none,
    fun _ => .absent⟩

/-- A state for C10's counterexample: `"posts"` resident in memory,
nothing else. -/
def memOnlyState : CacheState Nat :=
  ⟨"cache", 300, fun k => if k = "posts" then some ⟨0, 1⟩ else none,
    fun _ => .absent⟩

/-- A state for C10's witness: the `"posts"` entry present in both
tiers. -/
def deniedRemovalState : CacheState Nat :=
  ⟨"cache", 300, fun k => if k = "posts" then some ⟨0, 7⟩ else none,
    fun p => if p = "cache/posts.json" then .parsed ⟨some 0, some 7⟩ else .absent⟩

/-- A state for C6's witness: a fresh `"posts"` entry with timestamp 10
and payload `[1]`. -/
def freshListState : CacheState (List Nat) :=
  ⟨"cache", 300, fun k => if k = "posts" then some ⟨10, [1]⟩ else none,
    fun _ => .absent⟩

/-! ## Theorems about the Fetcher -/

/-- When every attempt in the window takes a retry branch, the loop
runs all remaining iterations, sleeping `b * 2 ^ (attempt - 1)` after
each one (including the last), and the aggregated error carries the
last attempt's exception. -/
theorem requestAux_all_retry {α : Type} (b : ℚ) (outcomes : Nat → AttemptOutcome α)
    (k : Nat → ExcKind) :
    ∀ (n a : Nat) (last : Option ExcKind), 1 ≤ a →
      (∀ i, a ≤ i → i < a + n → classify (outcomes i) = .retry (k i)) →
      requestAux b outcomes a n last =
        ⟨n, (List.range n).map (fun j => b * 2 ^ (a - 1 + j)),
          .error (.exhausted (if n = 0 then last else some (k (a + n - 1))))⟩ := by
  intro n
  induction n with
  | zero => intro a last _ _; simp [requestAux]
  | succ m ih =>
    intro a last ha h
    have h1 : classify (outcomes a) = .retry (k a) := h a le_rfl (by omega)
    have ihr := ih (a + 1) (some (k a)) (by omega)
      (fun i hi1 hi2 => h i (by omega) (by omega))
    rw [requestAux, h1]
    simp only [ihr, RequestResult.mk.injEq]
    refine ⟨trivial, ?_, ?_⟩
    · rw [List.range_succ_eq_map, List.map_cons, List.map_map]
      refine congrArg₂ _ (by rw [Nat.add_zero]) (List.map_congr_left ?_)
      intro j _
      show b * 2 ^ (a + 1 - 1 + j) = b * 2 ^ (a - 1 + Nat.succ j)
      have hj : a + 1 - 1 + j = a - 1 + Nat.succ j := by omega
      rw [hj]
    · rcases Nat.eq_zero_or_pos m with hm | hm
      · subst hm; simp
      · have hm' : ¬ (m = 0) := by omega
        have : a + 1 + m - 1 = a + (m + 1) - 1 := by omega
        simp [hm', this]

/-- Claim C2 (amended): when all `N ≥ 1` attempts take a retry branch
(transport failure or uncategorized exception), `_request` makes `N`
attempts, sleeps after every one of them — `N` delays of durations
`b·2^0, b·2^1, …, b·2^(N-1)`, the last sleep occurring after the final
failed attempt — and then raises the aggregated exhaustion error
carrying the last attempt's underlying exception. -/
theorem all_retryable_makes_n_attempts_n_sleeps {α : Type} (b : ℚ) (N : Nat)
    (outcomes : Nat → AttemptOutcome α) (k : Nat → ExcKind)
    (hN : 1 ≤ N) (h : ∀ i, 1 ≤ i → i ≤ N → classify (outcomes i) = .retry (k i)) :
    request b N outcomes =
      ⟨N, (List.range N).map (fun j => b * 2 ^ j),
        .error (.exhausted (some (k N)))⟩ := by
  have hN' : ¬ (N = 0) := by omega
  have h1N : 1 + N - 1 = N := by omega
  rw [request, requestAux_all_retry b outcomes k N 1 none le_rfl
    (fun i hi1 hi2 => h i hi1 (by omega))]
  simp [hN', h1N]

/-- Witness for C2's amended theorem: two transport timeouts with
`max_retries = 2`, `b = 1/2` give two attempts, sleeps `1/2` and `1`,
and exhaustion carrying the transport error. -/
theorem all_retryable_makes_n_attempts_n_sleeps_witness :
    ((1 ≤ 2 ∧ ∀ i, 1 ≤ i → i ≤ 2 →
        classify ((fun _ => (AttemptOutcome.transportError : AttemptOutcome Nat)) i)
          = .retry ((fun _ => ExcKind.transport) i)) ∧
      request (1/2 : ℚ) 2 (fun _ => (AttemptOutcome.transportError : AttemptOutcome Nat)) =
        ⟨2, (List.range 2).map (fun j => (1/2 : ℚ) * 2 ^ j),
          .error (.exhausted (some ((fun _ => ExcKind.transport) 2)))⟩) :=
  ⟨⟨by decide, fun i _ _ => rfl⟩,
    all_retryable_makes_n_attempts_n_sleeps (1/2 : ℚ) 2
      (fun _ => (AttemptOutcome.transportError : AttemptOutcome Nat))
      (fun _ => ExcKind.transport) (by decide) (fun i _ _ => rfl)⟩

/-- Claim C2 counterexample: with `max_retries = 1` and a transport
timeout on the single attempt, the claim predicts `N - 1 = 0`
inter-attempt delays, but the code performs one sleep: the retry
branches sleep before checking whether attempts remain. -/
theorem sleep_count_is_n_not_n_minus_one :
    (request (1/2 : ℚ) 1
        (fun _ => (AttemptOutcome.transportError : AttemptOutcome Nat))).sleeps.length = 1 ∧
      (1 : Nat) ≠ 1 - 1 := by
  constructor
  · norm_num [request, requestAux, classify]
  · decide

/-- Claim C1 (code-bug evidence): with `max_retries = 2` and every
attempt returning HTTP 503, `_request` makes exactly one attempt,
performs zero sleeps, and raises the fatal "Server error"
`APIClientError` instead of retrying: the exception raised for a 5xx
status is caught by the `except APIClientError` handler and re-raised
immediately, contradicting both the spec and the code's own
"Server error - may retry" comment. -/
theorem server_error_aborts_first_attempt :
    request (1/2 : ℚ) 2
        (fun _ => AttemptOutcome.response 503 (BodyParse.list ([] : List Nat)))
      = ⟨1, [], .error (.serverError 503)⟩ := by
  norm_num [request, requestAux, classify]

/-- Claim C5: a client-error status (400–499) on the first attempt makes
`_request` raise the fatal "Client error" `APIClientError` after exactly
one attempt and zero sleeps, for any `max_retries ≥ 1` and any response
body. -/
theorem client_error_one_attempt_no_sleep {α : Type} (b : ℚ) (N : Nat) (s : Nat)
    (body : BodyParse α) (outcomes : Nat → AttemptOutcome α)
    (hN : 1 ≤ N) (h4 : 400 ≤ s) (h5 : s < 500)
    (h1 : outcomes 1 = .response s body) :
    request b N outcomes = ⟨1, [], .error (.clientError s)⟩ := by
  obtain ⟨m, rfl⟩ : ∃ m, N = m + 1 := ⟨N - 1, by omega⟩
  rw [request, requestAux, h1]
  simp only [classify]
  rw [if_neg (by omega), if_pos h4]

/-- Witness for C5: HTTP 404 on the first of three configured attempts
fails immediately as a client error with no sleeps. -/
theorem client_error_one_attempt_no_sleep_witness :
    ((1 ≤ 3 ∧ 400 ≤ 404 ∧ 404 < 500 ∧
        (fun _ => AttemptOutcome.response 404 (BodyParse.list ([] : List Nat))) 1
          = AttemptOutcome.response 404 (.list [])) ∧
      request (1/2 : ℚ) 3
          (fun _ => AttemptOutcome.response 404 (BodyParse.list ([] : List Nat)))
        = ⟨1, [], .error (.clientError 404)⟩) :=
  ⟨⟨by decide, by decide, by decide, rfl⟩,
    client_error_one_attempt_no_sleep (1/2 : ℚ) 3 404 (.list []) _
      (by decide) (by decide) (by decide) rfl⟩

/-! ## Theorems about the CacheStore -/

/-- Claim C7: a failed persisted write makes `save` raise
`CacheIOError`, and the memory tier still holds the new entry with the
new timestamp and payload — the memory write is not rolled back. -/
theorem save_write_failure_keeps_memory {α : Type} (now : Int)
    (st : CacheState α) (key : String) (data : α) :
    (save now false st key data).snd = .error .cacheIOError ∧
      (save now false st key data).fst.memCache key = some ⟨now, data⟩ := by
  simp [save]

/-- Claim C9: `save` followed immediately (same clock reading, so age
0) by `load` with a non-negative TTL returns exactly the saved payload
list, records in the same order. -/
theorem save_then_load_roundtrip {ρ : Type} (now : Int) (fileWriteOk : Bool)
    (st : CacheState (List ρ)) (key : String) (payload : List ρ)
    (httl : 0 ≤ st.ttl) :
    (load now (save now fileWriteOk st key payload).fst key false).snd
      = .ok (some payload) := by
  have hmem : (save now fileWriteOk st key payload).fst.memCache key
      = some ⟨now, payload⟩ := by
    cases fileWriteOk <;> simp [save]
  have httl' : (save now fileWriteOk st key payload).fst.ttl = st.ttl := by
    cases fileWriteOk <;> simp [save]
  simp [load, hmem, httl', httl]

/-- Witness for C9: saving `[1, 2]` under `"posts"` at time 5 in the
empty state and loading at time 5 returns `[1, 2]`. -/
theorem save_then_load_roundtrip_witness :
    (0 ≤ (emptyState (List Nat)).ttl) ∧
      (load 5 (save 5 true (emptyState (List Nat)) "posts" [1, 2]).fst
          "posts" false).snd = .ok (some [1, 2]) :=
  ⟨by decide, save_then_load_roundtrip 5 true (emptyState (List Nat)) "posts" [1, 2]
    (by decide)⟩

/-- Claim C3: when no valid in-memory entry exists (absent or expired)
and the persisted file exists but cannot be read (`OSError`) or parsed
(`ValueError`), `load` raises `CacheIOError` — it never turns an
unreadable or corrupt persisted entry into a miss. -/
theorem load_unreadable_file_raises {α : Type} (now : Int) (st : CacheState α)
    (key : String)
    (hmem : st.memCache key = none ∨
      ∃ e, st.memCache key = some e ∧ st.ttl < now - e.ts)
    (hfile : st.files (filePath st.cacheDir key) = .unreadable ∨
      st.files (filePath st.cacheDir key) = .corrupt) :
    (load now st key false).snd = .error .cacheIOError := by
  rcases hmem with hmem | ⟨e, hmem, hexp⟩
  · rcases hfile with hfile | hfile <;> simp [load, loadFile, hmem, hfile]
  · rcases hfile with hfile | hfile <;>
      (simp [load, loadFile, hmem, hfile]; rw [if_neg (by omega)])

/-- Witness for C3: loading `"posts"` from `unreadableState` raises
`CacheIOError`. -/
theorem load_unreadable_file_raises_witness :
    (unreadableState.memCache "posts" = none ∧
        unreadableState.files (filePath unreadableState.cacheDir "posts")
          = .unreadable) ∧
      (load 100 unreadableState "posts" false).snd = .error .cacheIOError :=
  ⟨⟨rfl, by decide⟩,
    load_unreadable_file_raises 100 unreadableState "posts" (.inl rfl)
      (.inl (by decide))⟩

/-- Claim C4: with `ttl ≥ 0`, `allow_stale = False` and a stored entry
of age `now - ts`, `load` returns the stored payload iff the age is at
most the TTL, and returns a miss iff the age exceeds it — whether the
entry sits in the memory tier or in the persisted tier. -/
theorem load_hit_iff_fresh {α : Type} (now ts : Int) (st : CacheState α)
    (key : String) (d : α) (_httl : 0 ≤ st.ttl)
    (hstored : entryStored st key ts d) :
    ((load now st key false).snd = .ok (some d) ↔ now - ts ≤ st.ttl) ∧
      ((load now st key false).snd = .ok none ↔ st.ttl < now - ts) := by
  rcases hstored with ⟨hmem, hfile | hfile⟩ | ⟨hmem, hfile⟩ <;>
    by_cases hage : now - ts ≤ st.ttl <;>
      simp [load, loadFile, hmem, hfile, hage] <;> omega

/-- Witness for C4: at time 20 (age 10, TTL 300) the stored payload is
returned and a miss is impossible. -/
theorem load_hit_iff_fresh_witness :
    (0 ≤ freshMemState.ttl ∧ entryStored freshMemState "posts" 10 7) ∧
      (((load 20 freshMemState "posts" false).snd = .ok (some 7) ↔
          (20 : Int) - 10 ≤ freshMemState.ttl) ∧
        ((load 20 freshMemState "posts" false).snd = .ok none ↔
          freshMemState.ttl < (20 : Int) - 10)) :=
  ⟨⟨by decide, Or.inl ⟨rfl, Or.inl (by decide)⟩⟩,
    load_hit_iff_fresh 20 10 freshMemState "posts" 7 (by decide)
      (Or.inl ⟨rfl, Or.inl (by decide)⟩)⟩

/-- `dropUnderscores` leaves a list alone when its head is not an
underscore. -/
theorem dropUnderscores_of_head_ne (c : Char) (cs : List Char) (hc : c ≠ '_') :
    dropUnderscores (c :: cs) = c :: cs := by
  simp [dropUnderscores, hc]

/-- `.strip("_")` is the identity on a list whose first and last
characters are not underscores. -/
theorem stripUnderscores_of_ends_ne (l : List Char) (c d : Char)
    (hh : l.head? = some c) (hl : l.getLast? = some d)
    (hc : c ≠ '_') (hd : d ≠ '_') :
    stripUnderscores l = l := by
  cases l with
  | nil => simp at hh
  | cons x xs =>
    have hx : x = c := by simpa using hh
    rw [stripUnderscores, dropUnderscores_of_head_ne _ _ (hx.symm ▸ hc)]
    cases hr : (x :: xs).reverse with
    | nil => simp at hr
    | cons y ys =>
      have hy : y = d := by
        have hrh := List.head?_reverse (x :: xs)
        rw [hr, hl] at hrh
        simpa using hrh
      rw [dropUnderscores_of_head_ne _ _ (hy.symm ▸ hd)]
      have h2 := congrArg List.reverse hr
      rw [List.reverse_reverse] at h2
      exact h2.symm

/-- Claim C8 (amended): the persisted file name is the key with `/`
replaced by `_` and leading/trailing underscore characters — whether
original or introduced by the replacement — trimmed, suffixed `.json`;
in particular a key whose first and last characters are neither `/` nor
`_` keeps its leading and trailing characters in the mapped name. -/
theorem filePath_preserves_ends (dir : String) (l : List Char) (c d : Char)
    (hh : l.head? = some c) (hl : l.getLast? = some d)
    (hc1 : c ≠ '/') (hc2 : c ≠ '_') (hd1 : d ≠ '/') (hd2 : d ≠ '_') :
    filePath dir (String.mk l)
        = dir ++ "/" ++ String.mk (replaceSlash l) ++ ".json" ∧
      (safeName (String.mk l)).data.head? = some c ∧
      (safeName (String.mk l)).data.getLast? = some d := by
  have hmaph : (replaceSlash l).head? = some c := by
    rw [replaceSlash, List.head?_map, hh]
    simp [replaceSlashChar, hc1]
  have hmapl : (replaceSlash l).getLast? = some d := by
    rw [replaceSlash, List.getLast?_map, hl]
    simp [replaceSlashChar, hd1]
  have hstrip : stripUnderscores (replaceSlash l) = replaceSlash l :=
    stripUnderscores_of_ends_ne _ c d hmaph hmapl hc2 hd2
  have hsn : safeName (String.mk l) = String.mk (replaceSlash l) := by
    rw [safeName]
    show String.mk (stripUnderscores (replaceSlash l)) = _
    rw [hstrip]
  refine ⟨?_, ?_, ?_⟩
  · rw [filePath, hsn]
  · rw [hsn]; exact hmaph
  · rw [hsn]; exact hmapl

/-- Witness for C8's amended theorem: the key `"posts"` (plain ends)
maps to `cache/posts.json` with its first and last characters kept. -/
theorem filePath_preserves_ends_witness :
    ("posts".data.head? = some 'p' ∧ "posts".data.getLast? = some 's' ∧
        'p' ≠ '/' ∧ 'p' ≠ '_' ∧ 's' ≠ '/' ∧ 's' ≠ '_') ∧
      (filePath "cache" (String.mk "posts".data)
          = "cache" ++ "/" ++ String.mk (replaceSlash "posts".data) ++ ".json" ∧
        (safeName (String.mk "posts".data)).data.head? = some 'p' ∧
        (safeName (String.mk "posts".data)).data.getLast? = some 's') :=
  ⟨⟨by decide, by decide, by decide, by decide, by decide, by decide⟩,
    filePath_preserves_ends "cache" "posts".data 'p' 's' (by decide) (by decide)
      (by decide) (by decide) (by decide) (by decide)⟩

/-- Claim C8 counterexample: the key `"_posts"` contains no path
separator at all — in particular none at its ends — yet its mapped
persisted name is `posts.json`: `.strip("_")` trims underscore
characters as such, so the key's leading `'_'` is not preserved. -/
theorem filePath_drops_leading_underscore :
    ("_posts".data.head? = some '_' ∧ '_' ≠ '/' ∧
        ('/' : Char) ∉ "_posts".data) ∧
      filePath "cache" "_posts" = "cache/posts.json" ∧
      (safeName "_posts").data.head? = some 'p' := by
  exact ⟨⟨by decide, by decide, by decide⟩, by decide, by decide⟩

/-- Claim C10 counterexample: the empty-string key is absent from the
cache, yet `clear("")` is not a no-op — the `if key:` truthiness test
sends the empty key to the clear-all branch, which empties the whole
memory tier. -/
theorem clear_empty_key_not_noop :
    (memOnlyState.memCache "" = none ∧
        memOnlyState.memCache "posts" = some ⟨0, 1⟩) ∧
      (clear (fun _ => true) memOnlyState "").fst.memCache "posts" = none := by
  exact ⟨⟨by decide, by decide⟩, by decide⟩

/-- Claim C10 (amended): `clear(key)` never raises, for any key.  For a
non-empty key, clearing a key absent from both tiers changes nothing,
and a denied file removal is silently swallowed, so `clear` succeeds
while the persisted entry is still on disk.  The empty-string key
instead takes the clear-all branch, which empties the memory tier. -/
theorem clear_never_raises {α : Type} (removeOk : String → Bool)
    (st : CacheState α) (key : String) :
    (clear removeOk st key).snd = .ok () ∧
      (key ≠ "" → st.memCache key = none →
        st.files (filePath st.cacheDir key) = .absent →
        (∀ k, (clear removeOk st key).fst.memCache k = st.memCache k) ∧
          ∀ p, (clear removeOk st key).fst.files p = st.files p) ∧
      (key ≠ "" → removeOk (filePath st.cacheDir key) = false →
        (clear removeOk st key).fst.files (filePath st.cacheDir key)
          = st.files (filePath st.cacheDir key)) ∧
      (key = "" → ∀ k, (clear removeOk st key).fst.memCache k = none) := by
  by_cases hk : key = ""
  · subst hk
    exact ⟨by simp [clear], fun h => absurd rfl h, fun h => absurd rfl h,
      fun _ k => by simp [clear]⟩
  · refine ⟨by simp [clear, hk], ?_, ?_, fun h => absurd h hk⟩
    · intro _ hmem hfile
      constructor
      · intro k
        by_cases hkk : k = key
        · subst hkk; simp [clear, hk, hmem]
        · simp [clear, hk, hkk]
      · intro p
        simp [clear, hk, removeFile, hfile]
    · intro _ hrm
      cases hf : st.files (filePath st.cacheDir key) <;>
        simp [clear, hk, removeFile, hf, hrm]

/-- Witness for C10's amended theorem: clearing `"posts"` with every
removal denied still succeeds, and the persisted file survives. -/
theorem clear_never_raises_witness :
    (("posts" : String) ≠ "" ∧
        (fun _ : String => false) (filePath deniedRemovalState.cacheDir "posts")
          = false) ∧
      ((clear (fun _ => false) deniedRemovalState "posts").snd = .ok () ∧
        (clear (fun _ => false) deniedRemovalState "posts").fst.files
            (filePath deniedRemovalState.cacheDir "posts")
          = deniedRemovalState.files (filePath deniedRemovalState.cacheDir "posts")) :=
  ⟨⟨by decide, rfl⟩,
    ⟨(clear_never_raises (fun _ => false) deniedRemovalState "posts").1,
      (clear_never_raises (fun _ => false) deniedRemovalState "posts").2.2.1
        (by decide) rfl⟩⟩

/-! ## Theorems about the orchestrator -/

/-- Claim C6: `_handle_list_posts` with `force = True` and an existing
fresh `"posts"` entry clears that entry, invokes `fetch_posts` even
though a valid entry existed, saves the fetched result over the old
entry in both tiers, and reports `from_cache = False`. -/
theorem force_refetch_overwrites {α : Type} (now : Int)
    (removeOk : String → Bool) (st : CacheState (List α)) (fetched : List α)
    (e : MemEntry (List α)) (_hmem : st.memCache "posts" = some e)
    (_hfresh : now - e.ts ≤ st.ttl) :
    ∃ r : OrchResult α,
      handleListPosts now true removeOk st fetched true = .ok r ∧
        r.fromCache = false ∧ r.fetchInvoked = true ∧ r.posts = fetched ∧
        r.state.memCache "posts" = some ⟨now, fetched⟩ ∧
        r.state.files (filePath st.cacheDir "posts")
          = .parsed ⟨some now, some fetched⟩ := by
  have hdir : (clear removeOk st "posts").fst.cacheDir = st.cacheDir := by
    simp [clear]
  refine ⟨⟨fetched, false, true,
      (save now true (clear removeOk st "posts").fst "posts" fetched).fst⟩,
    ?_, rfl, rfl, rfl, ?_, ?_⟩
  · simp [handleListPosts, save]
  · simp [save]
  · simp [save, hdir]

/-- Witness for C6: forcing at time 20 over a fresh `[1]` entry fetches
`[5, 6]`, overwrites the entry and reports a remote read. -/
theorem force_refetch_overwrites_witness :
    (freshListState.memCache "posts" = some ⟨10, [1]⟩ ∧
        (20 : Int) - 10 ≤ freshListState.ttl) ∧
      ∃ r : OrchResult Nat,
        handleListPosts 20 true (fun _ => true) freshListState [5, 6] true
            = .ok r ∧
          r.fromCache = false ∧ r.fetchInvoked = true ∧ r.posts = [5, 6] ∧
          r.state.memCache "posts" = some ⟨20, [5, 6]⟩ ∧
          r.state.files (filePath freshListState.cacheDir "posts")
            = .parsed ⟨some 20, some [5, 6]⟩ :=
  ⟨⟨by decide, by decide⟩,
    force_refetch_overwrites 20 (fun _ => true) freshListState [5, 6]
      ⟨10, [1]⟩ (by decide) (by decide)⟩

end ApiIntegration
